import Mathlib

/-!
Shallow embedding of the KWin script
src/kde-kwin-script/kde6/toshy-dbus-notifyactivewindow/contents/code/main.js.

The script defines one event handler, notifyActiveWindow, and registers it
once at load time on the host event stream workspace.windowActivated.
The handler reads three optional attributes off the activated window handle
and issues one D-Bus call; when the handle is falsy it logs and returns.
We embed the JavaScript values the handler can observe, the window object
with its own properties and its prototype chain, and the observable effects
(console log lines and outbound D-Bus calls) in their emission order.
-/

/-- A JavaScript value as far as this script can observe one: the window
attributes are strings in practice, but a present own property may also
hold the value undefined or null, and the handler forwards whatever it
reads. -/
inductive JSVal where
  | undefined
  | null
  | str (s : String)
deriving DecidableEq, Repr

/-- A JavaScript object as the handler observes it: its own properties and
the properties reachable only through its prototype chain, each an
association list from property name to value. hasOwnProperty consults only
the own list; a plain property read falls back to the prototype chain. -/
structure JSObject where
  own : List (String × JSVal)
  proto : List (String × JSVal)
deriving DecidableEq, Repr

/-- The argument the host passes to the handler. The host normally supplies
a window object or null, but the embedding keeps every JavaScript shape the
condition `if (!window)` can distinguish: undefined, booleans, numbers and
strings as well. -/
inductive HostArg where
  | null
  | undefined
  | boolV (b : Bool)
  | numV (n : Int)
  | strV (s : String)
  | obj (w : JSObject)
deriving DecidableEq, Repr

/-- JavaScript truthiness, the meaning of the source condition
`if (!window)`: null, undefined, false, 0 and the empty string are falsy;
every object is truthy. -/
def truthy : HostArg → Bool
  | .null => false
  | .undefined => false
  | .boolV b => b
  | .numV n => n != 0
  | .strV s => s != ""
  | .obj _ => true

/-- `window.hasOwnProperty(name)`: true exactly when the object carries the
property as an own property. On a primitive the boxed wrapper carries none
of the three attribute names, so the check is false. -/
def hasOwnProperty : HostArg → String → Bool
  | .obj w, name => (w.own.lookup name).isSome
  | _, _ => false

/-- A plain property read `window[name]`: the own property when present,
otherwise the prototype chain, otherwise undefined. -/
def getProperty : HostArg → String → JSVal
  | .obj w, name =>
      match w.own.lookup name with
      | some v => v
      | none =>
          match w.proto.lookup name with
          | some v => v
          | none => JSVal.undefined
  | _, _ => JSVal.undefined

/-- Whether a value is a string. -/
def isStringVal : JSVal → Bool
  | .str _ => true
  | _ => false

/-- The attribute named is either absent as an own property or holds a
string. This is the shape of every window handle the host supplies. -/
def attrIsStringOrAbsent (a : HostArg) (name : String) : Bool :=
  !hasOwnProperty a name || isStringVal (getProperty a name)

/-- The attribute-resolution pattern the source repeats for each of the
three attributes, for example
`var caption = window.hasOwnProperty('caption') ? window.caption : "UNDEF"`. -/
def resolveAttr (window : HostArg) (name : String) : JSVal :=
  if hasOwnProperty window name then getProperty window name
  else JSVal.str "UNDEF"

/-- An observable effect of the handler: a console log line, or an outbound
D-Bus call with its addressing and positional arguments. -/
inductive Effect where
  | log (msg : String)
  | callDBus (service path iface method : String) (args : List JSVal)
deriving DecidableEq, Repr

/-- Whether an effect is an outbound D-Bus call. -/
def isCallDBus : Effect → Bool
  | .callDBus _ _ _ _ _ => true
  | _ => false

/-- Whether an effect is a console log line. -/
def isLog : Effect → Bool
  | .log _ => true
  | _ => false

/-- Number of D-Bus calls among the emitted effects. -/
def countCalls (es : List Effect) : Nat :=
  (es.filter isCallDBus).length

/-- Number of log lines among the emitted effects. -/
def countLogs (es : List Effect) : Nat :=
  (es.filter isLog).length

/-- The state one invocation of the handler runs in: the borrowed window
handle and the effects emitted so far, in order. The script keeps no other
state. -/
structure ScriptState where
  window : HostArg
  effects : List Effect
deriving DecidableEq, Repr

/-- `console.log(msg)`: appends a log effect. -/
def consoleLog (msg : String) (s : ScriptState) : ScriptState :=
  { s with effects := s.effects ++ [Effect.log msg] }

/-- `callDBus(service, path, iface, method, a1, a2, a3)`: appends a D-Bus
call effect; the call is fire and forget, no result is consumed. -/
def doCallDBus (service path iface method : String) (args : List JSVal)
    (s : ScriptState) : ScriptState :=
  { s with effects := s.effects ++ [Effect.callDBus service path iface method args] }

/-- The body of `function notifyActiveWindow(window)` from main.js, line by
line, as a transformer of the script state. -/
def notifyActiveWindowRun (s : ScriptState) : ScriptState :=
  if !truthy s.window then
    consoleLog "The client object is null" s
  else
    let caption := resolveAttr s.window "caption"
    let resourceClass := resolveAttr s.window "resourceClass"
    let resourceName := resolveAttr s.window "resourceName"
    doCallDBus "org.toshy.Toshy" "/org/toshy/Toshy" "org.toshy.Toshy"
      "NotifyActiveWindow" [caption, resourceClass, resourceName] s

/-- The effects one invocation of the handler emits on a given argument,
starting from a fresh effect trace. -/
def notifyActiveWindow (window : HostArg) : List Effect :=
  (notifyActiveWindowRun { window := window, effects := [] }).effects

/-- Two successive invocations of the handler on the same argument: the
script holds no state between invocations, so the traces concatenate. -/
def invokeTwice (window : HostArg) : List Effect :=
  notifyActiveWindow window ++ notifyActiveWindow window

/-- The handlers this script can subscribe: only notifyActiveWindow. -/
inductive Handler where
  | notifyActiveWindowH
deriving DecidableEq, Repr

/-- Run a subscribed handler on an event argument. -/
def runHandler : Handler → HostArg → List Effect
  | .notifyActiveWindowH, arg => notifyActiveWindow arg

/-- The host state this script can affect: the subscriber list of the
windowActivated event stream. -/
structure HostState where
  windowActivatedSubs : List Handler
deriving DecidableEq, Repr

/-- `workspace.windowActivated.connect(h)`: appends one subscription. -/
def connectWindowActivated (h : Handler) (s : HostState) : HostState :=
  { s with windowActivatedSubs := s.windowActivatedSubs ++ [h] }

/-- Script load: the single top-level statement
`workspace.windowActivated.connect(notifyActiveWindow)` of main.js. -/
def scriptLoad (s : HostState) : HostState :=
  connectWindowActivated Handler.notifyActiveWindowH s

/-- The host delivers one activation event: every subscribed handler runs
on the argument; the subscriber list is untouched. -/
def deliverEvent (s : HostState) (arg : HostArg) : HostState × List Effect :=
  (s, (s.windowActivatedSubs.map (fun h => runHandler h arg)).flatten)

/-- The host delivers a sequence of activation events. -/
def deliverMany (s : HostState) : List HostArg → HostState
  | [] => s
  | a :: rest => deliverMany (deliverEvent s a).1 rest

/-- A window handle with all three attributes present as strings. -/
def wAllAttrs : JSObject :=
  { own := [("caption", JSVal.str "Terminal"),
            ("resourceClass", JSVal.str "org.kde.konsole"),
            ("resourceName", JSVal.str "konsole")],
    proto := [] }

/-- A window handle with only the caption present. -/
def wOnlyCaption : JSObject :=
  { own := [("caption", JSVal.str "Foo")], proto := [] }

/-- A window handle whose three attributes are present with string values. -/
def wStrAttrs : JSObject :=
  { own := [("caption", JSVal.str "T"),
            ("resourceClass", JSVal.str "C"),
            ("resourceName", JSVal.str "N")],
    proto := [] }

/-- A window handle whose three attributes are present and empty. -/
def wEmptyAttrs : JSObject :=
  { own := [("caption", JSVal.str ""),
            ("resourceClass", JSVal.str ""),
            ("resourceName", JSVal.str "")],
    proto := [] }

/-- A window handle with an own caption holding undefined, an own
resourceName holding null, and a resourceClass reachable only through the
prototype chain. -/
def wOwnVsProto : JSObject :=
  { own := [("caption", JSVal.undefined), ("resourceName", JSVal.null)],
    proto := [("resourceClass", JSVal.str "FromProto")] }

/-- On a falsy argument the handler takes the null branch: one log line,
nothing else. -/
theorem notifyActiveWindow_eq_of_falsy (arg : HostArg) (h : truthy arg = false) :
    notifyActiveWindow arg = [Effect.log "The client object is null"] := by
  simp [notifyActiveWindow, notifyActiveWindowRun, consoleLog, h]

/-- On a truthy argument the handler issues the single fixed D-Bus call
with the three resolved attributes as positional arguments. -/
theorem notifyActiveWindow_eq_of_truthy (arg : HostArg) (h : truthy arg = true) :
    notifyActiveWindow arg =
      [Effect.callDBus "org.toshy.Toshy" "/org/toshy/Toshy" "org.toshy.Toshy"
        "NotifyActiveWindow"
        [resolveAttr arg "caption", resolveAttr arg "resourceClass",
         resolveAttr arg "resourceName"]] := by
  simp [notifyActiveWindow, notifyActiveWindowRun, doCallDBus, h]

/-- When the attribute is an own property, resolution reads it. -/
theorem resolveAttr_of_hasOwn (a : HostArg) (name : String)
    (h : hasOwnProperty a name = true) :
    resolveAttr a name = getProperty a name := by
  simp [resolveAttr, h]

/-- When the attribute is not an own property, resolution defaults. -/
theorem resolveAttr_of_not_hasOwn (a : HostArg) (name : String)
    (h : hasOwnProperty a name = false) :
    resolveAttr a name = JSVal.str "UNDEF" := by
  simp [resolveAttr, h]

/-- On an object, an own property is resolved to its stored value. -/
theorem resolveAttr_own_some (w : JSObject) (name : String) (v : JSVal)
    (h : w.own.lookup name = some v) :
    resolveAttr (HostArg.obj w) name = v := by
  simp [resolveAttr, hasOwnProperty, getProperty, h]

/-- On an object, a name that is no own property resolves to the default,
whatever the prototype chain holds. -/
theorem resolveAttr_own_none (w : JSObject) (name : String)
    (h : w.own.lookup name = none) :
    resolveAttr (HostArg.obj w) name = JSVal.str "UNDEF" := by
  simp [resolveAttr, hasOwnProperty, h]

/-- A string-or-absent attribute always resolves to a string. -/
theorem resolveAttr_isString (a : HostArg) (name : String)
    (h : attrIsStringOrAbsent a name = true) :
    ∃ s, resolveAttr a name = JSVal.str s := by
  unfold attrIsStringOrAbsent at h
  cases ho : hasOwnProperty a name with
  | false => exact ⟨"UNDEF", resolveAttr_of_not_hasOwn a name ho⟩
  | true =>
      rw [ho] at h
      simp at h
      cases hv : getProperty a name with
      | undefined => rw [hv] at h; simp [isStringVal] at h
      | null => rw [hv] at h; simp [isStringVal] at h
      | str s => exact ⟨s, by rw [resolveAttr_of_hasOwn a name ho, hv]⟩

/-- Event delivery never changes the subscriber list. -/
theorem deliverMany_preserves_subs (events : List HostArg) (s : HostState) :
    (deliverMany s events).windowActivatedSubs = s.windowActivatedSubs := by
  induction events generalizing s with
  | nil => rfl
  | cons a rest ih => exact ih (deliverEvent s a).1

/-- Claim C1: for every non-null window handle on which all three
attributes caption, resourceClass and resourceName are present, the
handler notifyActiveWindow issues exactly one IPC call passing the three
attribute values as positional arguments in the order caption,
resourceClass, resourceName. -/
theorem notifyActiveWindow_all_attrs_present (w : JSObject)
    (hc : hasOwnProperty (HostArg.obj w) "caption" = true)
    (hrc : hasOwnProperty (HostArg.obj w) "resourceClass" = true)
    (hrn : hasOwnProperty (HostArg.obj w) "resourceName" = true) :
    notifyActiveWindow (HostArg.obj w) =
      [Effect.callDBus "org.toshy.Toshy" "/org/toshy/Toshy" "org.toshy.Toshy"
        "NotifyActiveWindow"
        [getProperty (HostArg.obj w) "caption",
         getProperty (HostArg.obj w) "resourceClass",
         getProperty (HostArg.obj w) "resourceName"]] ∧
    countCalls (notifyActiveWindow (HostArg.obj w)) = 1 := by
  have h := notifyActiveWindow_eq_of_truthy (HostArg.obj w) rfl
  rw [resolveAttr_of_hasOwn _ _ hc, resolveAttr_of_hasOwn _ _ hrc,
    resolveAttr_of_hasOwn _ _ hrn] at h
  exact ⟨h, by rw [countCalls, h]; rfl⟩

/-- Witness for C1 on a handle carrying caption Terminal, resourceClass
org.kde.konsole and resourceName konsole. -/
theorem notifyActiveWindow_all_attrs_present_witness :
    notifyActiveWindow (HostArg.obj wAllAttrs) =
      [Effect.callDBus "org.toshy.Toshy" "/org/toshy/Toshy" "org.toshy.Toshy"
        "NotifyActiveWindow"
        [JSVal.str "Terminal", JSVal.str "org.kde.konsole", JSVal.str "konsole"]] ∧
    countCalls (notifyActiveWindow (HostArg.obj wAllAttrs)) = 1 := by
  have h := notifyActiveWindow_all_attrs_present wAllAttrs
    (by decide) (by decide) (by decide)
  exact ⟨h.1.trans (by decide), h.2⟩

/-- Claim C2: for every non-null window handle missing one or more of the
attributes, each missing attribute is replaced by the literal UNDEF in its
argument position of the single IPC call, while each present attribute is
passed through unchanged. -/
theorem notifyActiveWindow_missing_attr_defaults (w : JSObject)
    (_hmiss : hasOwnProperty (HostArg.obj w) "caption" = false ∨
             hasOwnProperty (HostArg.obj w) "resourceClass" = false ∨
             hasOwnProperty (HostArg.obj w) "resourceName" = false) :
    ∃ c rc rn : JSVal,
      notifyActiveWindow (HostArg.obj w) =
        [Effect.callDBus "org.toshy.Toshy" "/org/toshy/Toshy" "org.toshy.Toshy"
          "NotifyActiveWindow" [c, rc, rn]] ∧
      (hasOwnProperty (HostArg.obj w) "caption" = false → c = JSVal.str "UNDEF") ∧
      (hasOwnProperty (HostArg.obj w) "caption" = true →
        c = getProperty (HostArg.obj w) "caption") ∧
      (hasOwnProperty (HostArg.obj w) "resourceClass" = false → rc = JSVal.str "UNDEF") ∧
      (hasOwnProperty (HostArg.obj w) "resourceClass" = true →
        rc = getProperty (HostArg.obj w) "resourceClass") ∧
      (hasOwnProperty (HostArg.obj w) "resourceName" = false → rn = JSVal.str "UNDEF") ∧
      (hasOwnProperty (HostArg.obj w) "resourceName" = true →
        rn = getProperty (HostArg.obj w) "resourceName") := by
  refine ⟨resolveAttr (HostArg.obj w) "caption",
    resolveAttr (HostArg.obj w) "resourceClass",
    resolveAttr (HostArg.obj w) "resourceName",
    notifyActiveWindow_eq_of_truthy (HostArg.obj w) rfl,
    fun h => resolveAttr_of_not_hasOwn _ _ h,
    fun h => resolveAttr_of_hasOwn _ _ h,
    fun h => resolveAttr_of_not_hasOwn _ _ h,
    fun h => resolveAttr_of_hasOwn _ _ h,
    fun h => resolveAttr_of_not_hasOwn _ _ h,
    fun h => resolveAttr_of_hasOwn _ _ h⟩

/-- Witness for C2 on a handle carrying only caption Foo: the call
arguments become Foo, UNDEF, UNDEF. -/
theorem notifyActiveWindow_missing_attr_defaults_witness :
    notifyActiveWindow (HostArg.obj wOnlyCaption) =
      [Effect.callDBus "org.toshy.Toshy" "/org/toshy/Toshy" "org.toshy.Toshy"
        "NotifyActiveWindow"
        [JSVal.str "Foo", JSVal.str "UNDEF", JSVal.str "UNDEF"]] := by
  obtain ⟨c, rc, rn, heq, hcf, hct, hrcf, hrct, hrnf, hrnt⟩ :=
    notifyActiveWindow_missing_attr_defaults wOnlyCaption
      (Or.inr (Or.inl (by decide)))
  rw [heq, hct (by decide), hrcf (by decide), hrnf (by decide)]
  decide

/-- Claim C3, counterexample: on window null the handler emits exactly one
log line, but its message is not the lowercase string the claim names. -/
theorem notifyActiveWindow_null_message_cex :
    countLogs (notifyActiveWindow HostArg.null) = 1 ∧
    Effect.log "the client object is null" ∉ notifyActiveWindow HostArg.null := by
  decide

/-- Claim C3 as amended: for window null the handler performs zero IPC
calls, emits exactly one log line with the message The client object is
null (capital T), and returns without further action. -/
theorem notifyActiveWindow_null_logs :
    notifyActiveWindow HostArg.null = [Effect.log "The client object is null"] ∧
    countCalls (notifyActiveWindow HostArg.null) = 0 ∧
    countLogs (notifyActiveWindow HostArg.null) = 1 := by
  decide

/-- Claim C4: every IPC call issued by the handler, on any argument, uses
exactly the fixed addressing, bus name org.toshy.Toshy, object path
/org/toshy/Toshy, interface org.toshy.Toshy, method NotifyActiveWindow,
with exactly three arguments; and when the three window attributes are
strings where present, the host-supplied shape, the three arguments are
strings. -/
theorem notifyActiveWindow_fixed_addressing (arg : HostArg) (e : Effect)
    (he : e ∈ notifyActiveWindow arg) (hd : isCallDBus e = true) :
    (∃ args : List JSVal,
        e = Effect.callDBus "org.toshy.Toshy" "/org/toshy/Toshy" "org.toshy.Toshy"
          "NotifyActiveWindow" args ∧ args.length = 3) ∧
    (attrIsStringOrAbsent arg "caption" = true →
     attrIsStringOrAbsent arg "resourceClass" = true →
     attrIsStringOrAbsent arg "resourceName" = true →
      ∃ a b c : String,
        e = Effect.callDBus "org.toshy.Toshy" "/org/toshy/Toshy" "org.toshy.Toshy"
          "NotifyActiveWindow" [JSVal.str a, JSVal.str b, JSVal.str c]) := by
  cases ht : truthy arg with
  | false =>
      rw [notifyActiveWindow_eq_of_falsy arg ht] at he
      simp at he
      subst he
      simp [isCallDBus] at hd
  | true =>
      rw [notifyActiveWindow_eq_of_truthy arg ht] at he
      simp at he
      subst he
      refine ⟨⟨_, rfl, rfl⟩, fun h1 h2 h3 => ?_⟩
      obtain ⟨a, ha⟩ := resolveAttr_isString _ _ h1
      obtain ⟨b, hb⟩ := resolveAttr_isString _ _ h2
      obtain ⟨c, hc⟩ := resolveAttr_isString _ _ h3
      exact ⟨a, b, c, by rw [ha, hb, hc]⟩

/-- Witness for C4 on a handle with three string attributes and the call
it emits. -/
theorem notifyActiveWindow_fixed_addressing_witness :
    (∃ args : List JSVal,
        Effect.callDBus "org.toshy.Toshy" "/org/toshy/Toshy" "org.toshy.Toshy"
            "NotifyActiveWindow" [JSVal.str "T", JSVal.str "C", JSVal.str "N"] =
          Effect.callDBus "org.toshy.Toshy" "/org/toshy/Toshy" "org.toshy.Toshy"
            "NotifyActiveWindow" args ∧ args.length = 3) ∧
    (attrIsStringOrAbsent (HostArg.obj wStrAttrs) "caption" = true →
     attrIsStringOrAbsent (HostArg.obj wStrAttrs) "resourceClass" = true →
     attrIsStringOrAbsent (HostArg.obj wStrAttrs) "resourceName" = true →
      ∃ a b c : String,
        Effect.callDBus "org.toshy.Toshy" "/org/toshy/Toshy" "org.toshy.Toshy"
            "NotifyActiveWindow" [JSVal.str "T", JSVal.str "C", JSVal.str "N"] =
          Effect.callDBus "org.toshy.Toshy" "/org/toshy/Toshy" "org.toshy.Toshy"
            "NotifyActiveWindow" [JSVal.str a, JSVal.str b, JSVal.str c]) :=
  notifyActiveWindow_fixed_addressing (HostArg.obj wStrAttrs)
    (Effect.callDBus "org.toshy.Toshy" "/org/toshy/Toshy" "org.toshy.Toshy"
      "NotifyActiveWindow" [JSVal.str "T", JSVal.str "C", JSVal.str "N"])
    (by decide) (by decide)

/-- Claim C5: for every non-null window handle, an attribute that is
present with the empty string as value is passed through to the IPC call
as the empty string and is not replaced by UNDEF. -/
theorem notifyActiveWindow_empty_string_passthrough (w : JSObject) :
    ∃ c rc rn : JSVal,
      notifyActiveWindow (HostArg.obj w) =
        [Effect.callDBus "org.toshy.Toshy" "/org/toshy/Toshy" "org.toshy.Toshy"
          "NotifyActiveWindow" [c, rc, rn]] ∧
      (hasOwnProperty (HostArg.obj w) "caption" = true →
        getProperty (HostArg.obj w) "caption" = JSVal.str "" →
        c = JSVal.str "" ∧ c ≠ JSVal.str "UNDEF") ∧
      (hasOwnProperty (HostArg.obj w) "resourceClass" = true →
        getProperty (HostArg.obj w) "resourceClass" = JSVal.str "" →
        rc = JSVal.str "" ∧ rc ≠ JSVal.str "UNDEF") ∧
      (hasOwnProperty (HostArg.obj w) "resourceName" = true →
        getProperty (HostArg.obj w) "resourceName" = JSVal.str "" →
        rn = JSVal.str "" ∧ rn ≠ JSVal.str "UNDEF") := by
  refine ⟨_, _, _, notifyActiveWindow_eq_of_truthy (HostArg.obj w) rfl,
    ?_, ?_, ?_⟩ <;>
    intro h hv <;>
    rw [resolveAttr_of_hasOwn _ _ h, hv] <;>
    exact ⟨rfl, by decide⟩

/-- Witness for C5 on a handle whose three attributes are present and
empty: the call carries three empty strings, no UNDEF. -/
theorem notifyActiveWindow_empty_string_passthrough_witness :
    notifyActiveWindow (HostArg.obj wEmptyAttrs) =
      [Effect.callDBus "org.toshy.Toshy" "/org/toshy/Toshy" "org.toshy.Toshy"
        "NotifyActiveWindow" [JSVal.str "", JSVal.str "", JSVal.str ""]] := by
  obtain ⟨c, rc, rn, heq, hc, hrc, hrn⟩ :=
    notifyActiveWindow_empty_string_passthrough wEmptyAttrs
  rw [heq, (hc (by decide) (by decide)).1, (hrc (by decide) (by decide)).1,
    (hrn (by decide) (by decide)).1]

/-- Claim C6: invoking the handler twice in succession with the same
non-null window handle produces two independent, identical IPC calls; the
handler is deterministic in the attributes of the handle and keeps no
state between invocations. -/
theorem notifyActiveWindow_two_invocations (w : JSObject) :
    ∃ e : Effect, isCallDBus e = true ∧
      notifyActiveWindow (HostArg.obj w) = [e] ∧
      invokeTwice (HostArg.obj w) = [e, e] := by
  refine ⟨_, ?_, notifyActiveWindow_eq_of_truthy (HostArg.obj w) rfl, ?_⟩
  · rfl
  · show notifyActiveWindow (HostArg.obj w) ++ notifyActiveWindow (HostArg.obj w) = _
    rw [notifyActiveWindow_eq_of_truthy (HostArg.obj w) rfl]
    rfl

/-- Claim C7: at script load time the handler is subscribed to the
windowActivated event exactly once, and the number of subscriptions does
not change however many activation events are delivered afterwards. -/
theorem subscription_exactly_once (events : List HostArg) :
    (scriptLoad { windowActivatedSubs := [] }).windowActivatedSubs.count
      Handler.notifyActiveWindowH = 1 ∧
    (deliverMany (scriptLoad { windowActivatedSubs := [] })
        events).windowActivatedSubs =
      (scriptLoad { windowActivatedSubs := [] }).windowActivatedSubs ∧
    (deliverMany (scriptLoad { windowActivatedSubs := [] })
        events).windowActivatedSubs.count Handler.notifyActiveWindowH = 1 := by
  refine ⟨rfl, deliverMany_preserves_subs events _, ?_⟩
  rw [deliverMany_preserves_subs events _]
  rfl

/-- Claim C8: the handler never mutates the window handle, every attribute
of the handle is the same after the callback as before it, and the run
only appends to the effect trace, leaving no other state behind. -/
theorem notifyActiveWindow_no_mutation (s : ScriptState) :
    (notifyActiveWindowRun s).window = s.window ∧
    ∃ emitted : List Effect,
      (notifyActiveWindowRun s).effects = s.effects ++ emitted := by
  unfold notifyActiveWindowRun
  split
  · exact ⟨rfl, _, rfl⟩
  · exact ⟨rfl, _, rfl⟩

/-- Claim C9: every falsy argument, not only null, takes the null branch:
one log line, zero IPC calls, identical to the window null case. -/
theorem notifyActiveWindow_falsy_null_branch (arg : HostArg)
    (h : truthy arg = false) :
    notifyActiveWindow arg = notifyActiveWindow HostArg.null ∧
    countCalls (notifyActiveWindow arg) = 0 ∧
    countLogs (notifyActiveWindow arg) = 1 := by
  rw [notifyActiveWindow_eq_of_falsy arg h,
    notifyActiveWindow_eq_of_falsy HostArg.null rfl]
  exact ⟨rfl, rfl, rfl⟩

/-- Witness for C9 at the falsy arguments undefined, 0, the empty string
and false. -/
theorem notifyActiveWindow_falsy_null_branch_witness :
    (notifyActiveWindow HostArg.undefined = notifyActiveWindow HostArg.null ∧
     countCalls (notifyActiveWindow HostArg.undefined) = 0 ∧
     countLogs (notifyActiveWindow HostArg.undefined) = 1) ∧
    (notifyActiveWindow (HostArg.numV 0) = notifyActiveWindow HostArg.null ∧
     countCalls (notifyActiveWindow (HostArg.numV 0)) = 0 ∧
     countLogs (notifyActiveWindow (HostArg.numV 0)) = 1) ∧
    (notifyActiveWindow (HostArg.strV "") = notifyActiveWindow HostArg.null ∧
     countCalls (notifyActiveWindow (HostArg.strV "")) = 0 ∧
     countLogs (notifyActiveWindow (HostArg.strV "")) = 1) ∧
    (notifyActiveWindow (HostArg.boolV false) = notifyActiveWindow HostArg.null ∧
     countCalls (notifyActiveWindow (HostArg.boolV false)) = 0 ∧
     countLogs (notifyActiveWindow (HostArg.boolV false)) = 1) :=
  ⟨notifyActiveWindow_falsy_null_branch HostArg.undefined (by decide),
   notifyActiveWindow_falsy_null_branch (HostArg.numV 0) (by decide),
   notifyActiveWindow_falsy_null_branch (HostArg.strV "") (by decide),
   notifyActiveWindow_falsy_null_branch (HostArg.boolV false) (by decide)⟩

/-- Claim C10: attribute presence is decided by own-property existence:
an own property is forwarded with its stored value, undefined and null
included, while a name that is no own property, even one reachable
through the prototype chain, is replaced by UNDEF. -/
theorem notifyActiveWindow_own_property_semantics (w : JSObject) :
    ∃ c rc rn : JSVal,
      notifyActiveWindow (HostArg.obj w) =
        [Effect.callDBus "org.toshy.Toshy" "/org/toshy/Toshy" "org.toshy.Toshy"
          "NotifyActiveWindow" [c, rc, rn]] ∧
      (∀ v, w.own.lookup "caption" = some v → c = v) ∧
      (w.own.lookup "caption" = none → c = JSVal.str "UNDEF") ∧
      (∀ v, w.own.lookup "resourceClass" = some v → rc = v) ∧
      (w.own.lookup "resourceClass" = none → rc = JSVal.str "UNDEF") ∧
      (∀ v, w.own.lookup "resourceName" = some v → rn = v) ∧
      (w.own.lookup "resourceName" = none → rn = JSVal.str "UNDEF") := by
  refine ⟨resolveAttr (HostArg.obj w) "caption",
    resolveAttr (HostArg.obj w) "resourceClass",
    resolveAttr (HostArg.obj w) "resourceName",
    notifyActiveWindow_eq_of_truthy (HostArg.obj w) rfl,
    fun v h => resolveAttr_own_some w _ v h,
    fun h => resolveAttr_own_none w _ h,
    fun v h => resolveAttr_own_some w _ v h,
    fun h => resolveAttr_own_none w _ h,
    fun v h => resolveAttr_own_some w _ v h,
    fun h => resolveAttr_own_none w _ h⟩

/-- Witness for C10 on a handle with own caption undefined, own
resourceName null and resourceClass only on the prototype chain: the call
forwards undefined and null and defaults the prototype-only attribute. -/
theorem notifyActiveWindow_own_property_semantics_witness :
    notifyActiveWindow (HostArg.obj wOwnVsProto) =
      [Effect.callDBus "org.toshy.Toshy" "/org/toshy/Toshy" "org.toshy.Toshy"
        "NotifyActiveWindow"
        [JSVal.undefined, JSVal.str "UNDEF", JSVal.null]] := by
  obtain ⟨c, rc, rn, heq, hcs, hcn, hrcs, hrcn, hrns, hrnn⟩ :=
    notifyActiveWindow_own_property_semantics wOwnVsProto
  rw [heq, hcs JSVal.undefined (by decide), hrcn (by decide),
    hrns JSVal.null (by decide)]
